import Mathlib

/-!
Verification of the MenuVerse3D asynchronous 3D-asset generation pipeline.

Shallow embedding of:
  * the GenerationJob / Model3D data model (src/shared/schema.ts),
  * the storage operations (DatabaseStorage.updateGenerationJob,
    DatabaseStorage.create3DModel in the storage module),
  * the POST /api/generate-3d upload gate and its detached orchestration
    task (src/server/routes.ts, lines 297-456).

External effects (the image read, the Replicate provider call, the artifact
download) are modelled by an environment record describing their outcomes;
the database is modelled as in-memory lists.  The unique constraint on
models_3d.menu_item_id is part of the schema and is modelled inside
create3DModel: an insert for a dish that already has an artifact fails.
-/

/-- Job status column of generation_jobs (text, one of the four values
noted in src/shared/schema.ts line 98). -/
inductive JobStatus
  | pending
  | processing
  | completed
  | failed
deriving DecidableEq

/-- Row of the generation_jobs table (src/shared/schema.ts lines 95-107).
Timestamps are modelled as Nat. -/
structure GenerationJob where
  id : String
  menuItemId : String
  status : JobStatus
  replicateId : Option String
  inputImages : List String
  modelUrl : Option String
  error : Option String
  progress : Nat
  createdAt : Nat
  completedAt : Option Nat
deriving DecidableEq

/-- Row of the models_3d table (src/shared/schema.ts lines 75-83).
The DB-generated primary key is opaque; it is modelled as a fixed string
since no claim depends on it. -/
structure Model3D where
  id : String
  menuItemId : String
  modelUrl : String
  thumbnailUrl : Option String
  fileSize : Option Nat
deriving DecidableEq

/-- A Partial of InsertGenerationJob: the update objects passed to
DatabaseStorage.updateGenerationJob.  A field that is `none` is absent from
the update and left untouched by drizzle's `.set`.  (completedAt is not a
field of InsertGenerationJob — the insert schema omits it, schema.ts lines
109-113 — so no update can ever set it.) -/
structure JobUpdate where
  menuItemId : Option String := none
  status : Option JobStatus := none
  replicateId : Option String := none
  inputImages : Option (List String) := none
  modelUrl : Option String := none
  error : Option String := none
  progress : Option Nat := none
deriving DecidableEq

/-- DatabaseStorage.updateGenerationJob applied to one row: drizzle
`.set(updates)` writes exactly the fields present in the update object and
leaves every other column unchanged. -/
def updateGenerationJob (j : GenerationJob) (u : JobUpdate) : GenerationJob :=
  { j with
    menuItemId := u.menuItemId.getD j.menuItemId
    status := u.status.getD j.status
    replicateId := match u.replicateId with
      | some r => some r
      | none => j.replicateId
    inputImages := u.inputImages.getD j.inputImages
    modelUrl := match u.modelUrl with
      | some m => some m
      | none => j.modelUrl
    error := match u.error with
      | some e => some e
      | none => j.error
    progress := u.progress.getD j.progress }

/-- Does the model registry already hold an artifact for this dish?
Mirrors the uniqueness domain of models_3d.menu_item_id. -/
def registryHas (reg : List Model3D) (menuItemId : String) : Bool :=
  reg.any (fun m => m.menuItemId == menuItemId)

/-- Postgres duplicate-key error message raised by the unique constraint on
models_3d.menu_item_id. -/
def dupKeyMsg : String :=
  "duplicate key value violates unique constraint"

/-- DatabaseStorage.create3DModel: a plain `db.insert(models3D).values(...)`.
The schema's `.unique()` on menu_item_id makes the insert throw a duplicate
key error when an artifact for the dish already exists; otherwise the row
is appended (id generated by the DB, modelled as a constant). -/
def create3DModel (reg : List Model3D) (menuItemId modelUrl : String) :
    Except String (List Model3D) :=
  if registryHas reg menuItemId then
    Except.error dupKeyMsg
  else
    Except.ok (reg ++
      [{ id := "generated-id", menuItemId := menuItemId,
         modelUrl := modelUrl, thumbnailUrl := none, fileSize := none }])

/-- Job row created by the upload gate (routes.ts lines 332-337):
status pending, progress 0, one stored image reference, everything else
unset. -/
def mkJob (id menuItemId : String) (inputImages : List String)
    (createdAt : Nat) : GenerationJob :=
  { id := id, menuItemId := menuItemId, status := JobStatus.pending,
    replicateId := none, inputImages := inputImages, modelUrl := none,
    error := none, progress := 0, createdAt := createdAt,
    completedAt := none }

/-- Shape of a caught JS exception as inspected by the orchestrator's catch
block (routes.ts lines 433-443): an HTTP-style error carrying
error.response.status and an optional error.message, a plain Error carrying
only a message, or an exception with no usable message. -/
inductive JsError
  | http (status : Nat) (msg : Option String)
  | plain (msg : String)
  | bare
deriving DecidableEq

/-- Error-message selection of the catch block (routes.ts lines 436-443):
401 is reported as an authentication failure, any other truthy status as a
generic provider error with that status, otherwise error.message, with a
fixed default.  (A status of 0 is falsy in JS, so it falls through to the
message branches.) -/
def errorMessageOf : JsError → String
  | JsError.http s m =>
      if s == 401 then
        "Replicate API authentication failed. Please check your REPLICATE_API_TOKEN in .env.local"
      else if s != 0 then
        "Replicate API error (" ++ toString s ++ "): " ++ m.getD "Unknown error"
      else
        m.getD "3D generation failed"
  | JsError.plain m => m
  | JsError.bare => "3D generation failed"

/-- Outcome of the replicateClient.run call: either it returns and
output?.mesh is the (possibly absent) mesh URL, or it throws. -/
inductive ProviderOutcome
  | ok (mesh : Option String)
  | err (e : JsError)
deriving DecidableEq

/-- Outcomes of the orchestration task's external effects: whether the
staged-image read throws, what the provider call does, whether the artifact
download or local write throws, and the current clock (Date.now). -/
structure TaskEnv where
  readErr : Option JsError
  provider : ProviderOutcome
  fetchErr : Option JsError
  now : Nat
deriving DecidableEq

/-- Split a character list at every occurrence of a separator. -/
def splitOnChar (sep : Char) : List Char → List (List Char)
  | [] => [[]]
  | c :: cs =>
      if c = sep then [] :: splitOnChar sep cs
      else
        match splitOnChar sep cs with
        | [] => [[c]]
        | s :: ss => (c :: s) :: ss

/-- Basename of a query-free URL: its last nonempty slash-separated
segment (node's basename of new URL(u).pathname), empty when the URL has
no path segment. -/
def basenameChars (p : String) : List Char :=
  ((((splitOnChar '/' p.data)).filter (fun s => s ≠ [])).getLast?).getD []

/-- Local filename derivation of the materializer (routes.ts lines
394-399): the URL basename, or a dish-and-timestamp name when the basename
is empty, with a .glb extension appended when no extension is present. -/
def deriveFilename (modelUrl menuItemId : String) (now : Nat) : String :=
  if basenameChars modelUrl == [] then
    "model-" ++ menuItemId ++ "-" ++ toString now ++ ".glb"
  else if (basenameChars modelUrl).contains '.' then
    String.mk (basenameChars modelUrl)
  else
    String.mk (basenameChars modelUrl) ++ ".glb"

/-- Update object of routes.ts line 342: status processing, progress 10. -/
def updProcessing : JobUpdate :=
  { status := some JobStatus.processing, progress := some 10 }

/-- Progress-only update objects of routes.ts lines 360, 372, 381. -/
def updProgress (p : Nat) : JobUpdate :=
  { progress := some p }

/-- Completion update objects of routes.ts lines 406-410 and 421-425:
status completed, modelUrl, progress 100 (and nothing else — in particular
no completedAt). -/
def updCompleted (url : String) : JobUpdate :=
  { status := some JobStatus.completed, modelUrl := some url,
    progress := some 100 }

/-- Terminal-failure update object of routes.ts lines 445-448: exactly the
status and error fields. -/
def updFailed (msg : String) : JobUpdate :=
  { status := some JobStatus.failed, error := some msg }

/-- Inner download try/catch of the orchestrator (routes.ts lines 384-431).
Returns the updateGenerationJob calls it issues in order, the registry
after its create3DModel attempts, and the error (if any) that escapes to
the outer catch.  On download success it marks the job completed with the
local path then inserts; if that insert throws (duplicate dish) the catch
block re-marks the job completed with the remote URL and inserts again,
which throws once more and escapes.  On download failure the catch block
marks the job completed with the remote URL and inserts; a duplicate-dish
insert failure there escapes too. -/
def materialize (env : TaskEnv) (menuItemId meshUrl : String)
    (reg : List Model3D) :
    List JobUpdate × List Model3D × Option JsError :=
  match env.fetchErr with
  | none =>
      match create3DModel reg menuItemId
          ("/uploads/models/" ++ deriveFilename meshUrl menuItemId env.now) with
      | Except.ok reg2 =>
          ([updCompleted ("/uploads/models/" ++ deriveFilename meshUrl menuItemId env.now)],
           reg2, none)
      | Except.error msg =>
          ([updCompleted ("/uploads/models/" ++ deriveFilename meshUrl menuItemId env.now),
            updCompleted meshUrl],
           reg, some (JsError.plain msg))
  | some _ =>
      match create3DModel reg menuItemId meshUrl with
      | Except.ok reg2 => ([updCompleted meshUrl], reg2, none)
      | Except.error msg => ([updCompleted meshUrl], reg, some (JsError.plain msg))

/-- The try block of the detached orchestration task (routes.ts lines
341-432): processing/10, read the staged image, progress 30, call the
provider, progress 60, extract output?.mesh (absence is a thrown Error),
progress 70, then materialize.  Returns the updateGenerationJob calls in
order, the final registry, and the error (if any) reaching the outer
catch. -/
def taskBody (env : TaskEnv) (menuItemId : String) (reg : List Model3D) :
    List JobUpdate × List Model3D × Option JsError :=
  match env.readErr with
  | some e => ([updProcessing], reg, some e)
  | none =>
    match env.provider with
    | ProviderOutcome.err e =>
        ([updProcessing, updProgress 30], reg, some e)
    | ProviderOutcome.ok none =>
        ([updProcessing, updProgress 30, updProgress 60], reg,
         some (JsError.plain "No mesh URL in output from Replicate"))
    | ProviderOutcome.ok (some meshUrl) =>
        match materialize env menuItemId meshUrl reg with
        | (us, reg2, esc) =>
            ([updProcessing, updProgress 30, updProgress 60, updProgress 70] ++ us,
             reg2, esc)

/-- The whole detached async IIFE (routes.ts lines 340-450): the try block
followed by the outer catch, which converts any escaped error into one
final failed-status update.  The task as a whole is total — nothing
escapes it. -/
def runTask (env : TaskEnv) (menuItemId : String) (reg : List Model3D) :
    List JobUpdate × List Model3D :=
  match taskBody env menuItemId reg with
  | (us, reg2, none) => (us, reg2)
  | (us, reg2, some e) => (us ++ [updFailed (errorMessageOf e)], reg2)

/-- Every state of a job's ledger row over a run: the initial row followed
by the row after each successive updateGenerationJob call. -/
def statesFrom (j : GenerationJob) : List JobUpdate → List GenerationJob
  | [] => [j]
  | u :: us => j :: statesFrom (updateGenerationJob j u) us

/-- The job's ledger row after the detached task has finished. -/
def finalJob (env : TaskEnv) (j : GenerationJob) (reg : List Model3D) :
    GenerationJob :=
  (runTask env j.menuItemId reg).1.foldl updateGenerationJob j

/-- The sequence of progress values written by the task's
updateGenerationJob calls, in order. -/
def progressWrites (env : TaskEnv) (menuItemId : String)
    (reg : List Model3D) : List Nat :=
  (runTask env menuItemId reg).1.filterMap (fun u => u.progress)

/-- Spec invariant of section 3 on one job row: resultUrl set iff
completed, error set iff failed, never both, and progress 100 only when
completed. -/
def jobInvariant (j : GenerationJob) : Bool :=
  (j.modelUrl.isSome == (j.status == JobStatus.completed)) &&
  (j.error.isSome == (j.status == JobStatus.failed)) &&
  (!(j.modelUrl.isSome && j.error.isSome)) &&
  ((!(j.progress == 100)) || (j.status == JobStatus.completed))

/-- Strict increase of a list of naturals, as a decidable Bool. -/
def strictIncr : List Nat → Bool
  | [] => true
  | [_] => true
  | a :: b :: rest => (a < b : Bool) && strictIncr (b :: rest)

/-- An uploaded multipart file as multer sees it: stored filename, declared
MIME type, and byte size. -/
structure UploadedFile where
  filename : String
  mimetype : String
  size : Nat
deriving DecidableEq

/-- The multer acceptance check (routes.ts lines 52-61): image/* MIME type
and at most 10 MiB. -/
def multerAccepts (f : UploadedFile) : Bool :=
  List.isPrefixOf ("image/").data f.mimetype.data &&
  (f.size ≤ 10 * 1024 * 1024 : Bool)

/-- A POST /api/generate-3d request after parsing: the optional menuItemId
body field and the optional single image file. -/
structure GenRequest where
  menuItemId : Option String
  file : Option UploadedFile
deriving DecidableEq

/-- Server-side durable state touched by the route: the image files under
uploads/images, the generation_jobs rows, and the models_3d rows. -/
structure ServerState where
  imageFiles : List String
  jobs : List GenerationJob
  models : List Model3D
deriving DecidableEq

/-- HTTP response of the route: status code and the job representation
returned on 202. -/
structure GenResponse where
  httpStatus : Nat
  job : Option GenerationJob
deriving DecidableEq

/-- The synchronous request-handler body after the multer stage (routes.ts
lines 309-337 and 452): 400 when menuItemId is missing, 400 when no file
arrived, 503 when the Replicate credential is absent, otherwise insert a
pending job and answer 202.  (The detached task it spawns is runTask.) -/
def handlerBody (tokenPresent : Bool) (mid : Option String)
    (file : Option UploadedFile) (newJobId : String) (now : Nat)
    (st : ServerState) : GenResponse × ServerState :=
  match mid with
  | none => ({ httpStatus := 400, job := none }, st)
  | some m =>
    match file with
    | none => ({ httpStatus := 400, job := none }, st)
    | some f =>
      if tokenPresent then
        ({ httpStatus := 202,
           job := some (mkJob newJobId m
             ["/uploads/images/" ++ f.filename] now) },
         { st with jobs := st.jobs ++
             [mkJob newJobId m ["/uploads/images/" ++ f.filename] now] })
      else
        ({ httpStatus := 503, job := none }, st)

/-- The whole POST /api/generate-3d request path (routes.ts lines 297-337):
the multer middleware first writes an accepted file to uploads/images (or
answers 400 itself without writing when the file fails its checks), then
the handler body runs.  Nothing on any path removes a written file. -/
def handleGenerate (tokenPresent : Bool) (req : GenRequest)
    (newJobId : String) (now : Nat) (st : ServerState) :
    GenResponse × ServerState :=
  match req.file with
  | some f =>
    if multerAccepts f then
      handlerBody tokenPresent req.menuItemId (some f) newJobId now
        { st with imageFiles := st.imageFiles ++ [f.filename] }
    else
      ({ httpStatus := 400, job := none }, st)
  | none =>
    handlerBody tokenPresent req.menuItemId none newJobId now st

/-- Non-decrease of a list of naturals, as a decidable Bool. -/
def nonDecr : List Nat → Bool
  | [] => true
  | [_] => true
  | a :: b :: rest => (a ≤ b : Bool) && nonDecr (b :: rest)

/-- Faithful map of the provider-step outcomes that the outer catch treats
as failures: a thrown provider call, or a returned descriptor whose
output?.mesh is absent (routes.ts lines 375-379 throw in that case).  A
descriptor with a mesh URL is not a provider failure. -/
def providerFailure : ProviderOutcome → Option JsError
  | ProviderOutcome.err e => some e
  | ProviderOutcome.ok none =>
      some (JsError.plain "No mesh URL in output from Replicate")
  | ProviderOutcome.ok (some _) => none

/-- Concrete mesh URL returned by the provider in the test runs. -/
def meshUrlD1 : String := "https://replicate.delivery/pbxt/abc/mesh.glb"

/-- Concrete run in which every external effect succeeds. -/
def envOkDownload : TaskEnv :=
  { readErr := none, provider := ProviderOutcome.ok (some meshUrlD1),
    fetchErr := none, now := 1000 }

/-- Concrete run in which the artifact download throws. -/
def envFetchFail : TaskEnv :=
  { readErr := none, provider := ProviderOutcome.ok (some meshUrlD1),
    fetchErr := some JsError.bare, now := 1000 }

/-- Concrete run in which the provider call throws an HTTP 401. -/
def envAuthFail : TaskEnv :=
  { readErr := none, provider := ProviderOutcome.err (JsError.http 401 none),
    fetchErr := none, now := 1000 }

/-- Registry artifact left by a prior successful generation for dish D1. -/
def oldArtifactD1 : Model3D :=
  { id := "m1", menuItemId := "D1", modelUrl := "/uploads/models/old.glb",
    thumbnailUrl := none, fileSize := none }

/-- Second generation job submitted for dish D1. -/
def jobD1 : GenerationJob := mkJob "job-2" "D1" ["/uploads/images/i.png"] 500

/-- Concrete accepted upload used by the handler witnesses. -/
def sampleFile : UploadedFile :=
  { filename := "image-171-42.png", mimetype := "image/png", size := 2048 }

/-- Concrete server state holding no jobs and no artifacts. -/
def emptyState : ServerState :=
  { imageFiles := [], jobs := [], models := [] }

/-- C9: the failed-state update written by the orchestrator's catch block
(routes.ts lines 445-448) contains exactly the status and error fields, so
DatabaseStorage.updateGenerationJob leaves the job's progress, inputImages,
modelUrl, menuItemId and createdAt (and every other column) at their prior
values; in particular a failed job keeps the progress of its last completed
checkpoint. -/
theorem C9_failed_update_frame (j : GenerationJob) (msg : String) :
    (updateGenerationJob j (updFailed msg)).status = JobStatus.failed ∧
    (updateGenerationJob j (updFailed msg)).error = some msg ∧
    (updateGenerationJob j (updFailed msg)).progress = j.progress ∧
    (updateGenerationJob j (updFailed msg)).inputImages = j.inputImages ∧
    (updateGenerationJob j (updFailed msg)).modelUrl = j.modelUrl ∧
    (updateGenerationJob j (updFailed msg)).menuItemId = j.menuItemId ∧
    (updateGenerationJob j (updFailed msg)).createdAt = j.createdAt ∧
    (updateGenerationJob j (updFailed msg)).completedAt = j.completedAt ∧
    (updateGenerationJob j (updFailed msg)).replicateId = j.replicateId ∧
    (updateGenerationJob j (updFailed msg)).id = j.id :=
  ⟨rfl, rfl, rfl, rfl, rfl, rfl, rfl, rfl, rfl, rfl⟩

/-- C7: the detached orchestration task is total — runTask always returns
a final update list instead of letting any error escape — and on every
environment the job ends in a terminal record: completed with no error, or
failed with an error message recorded in the ledger. -/
theorem C7_task_never_escapes (env : TaskEnv) (id mid : String)
    (imgs : List String) (t : Nat) (reg : List Model3D) :
    ((finalJob env (mkJob id mid imgs t) reg).status = JobStatus.completed ∧
      (finalJob env (mkJob id mid imgs t) reg).error = none) ∨
    ((finalJob env (mkJob id mid imgs t) reg).status = JobStatus.failed ∧
      (finalJob env (mkJob id mid imgs t) reg).error ≠ none) := by
  obtain ⟨re, pr, fe, now⟩ := env
  rcases re with _ | e
  · rcases pr with mesh | e
    · rcases mesh with _ | url
      · right
        simp [finalJob, runTask, taskBody, mkJob, updateGenerationJob,
          updProcessing, updProgress, updFailed]
      · rcases fe with _ | e
        · by_cases hreg : registryHas reg mid = true
          · right
            simp [finalJob, runTask, taskBody, materialize, create3DModel,
              hreg, mkJob, updateGenerationJob, updProcessing, updProgress,
              updCompleted, updFailed]
          · left
            simp [finalJob, runTask, taskBody, materialize, create3DModel,
              hreg, mkJob, updateGenerationJob, updProcessing, updProgress,
              updCompleted, updFailed]
        · by_cases hreg : registryHas reg mid = true
          · right
            simp [finalJob, runTask, taskBody, materialize, create3DModel,
              hreg, mkJob, updateGenerationJob, updProcessing, updProgress,
              updCompleted, updFailed]
          · left
            simp [finalJob, runTask, taskBody, materialize, create3DModel,
              hreg, mkJob, updateGenerationJob, updProcessing, updProgress,
              updCompleted, updFailed]
    · right
      simp [finalJob, runTask, taskBody, mkJob, updateGenerationJob,
        updProcessing, updProgress, updFailed]
  · right
    simp [finalJob, runTask, taskBody, mkJob, updateGenerationJob,
      updProcessing, updFailed]

/-- C1 counterexample: after a prior success for dish D1 (the registry
already holds oldArtifactD1), a second job's run in which every external
effect succeeds reaches a ledger state — produced by the pipeline's own
update operations — with status failed, modelUrl still set and progress
100: resultUrl is set without status completed, error and resultUrl are
present together, and progress 100 does not imply completed. -/
theorem C1_invariant_violated_after_registry_conflict :
    finalJob envOkDownload jobD1 [oldArtifactD1] ∈
      statesFrom jobD1 (runTask envOkDownload jobD1.menuItemId [oldArtifactD1]).1 ∧
    (finalJob envOkDownload jobD1 [oldArtifactD1]).status = JobStatus.failed ∧
    (finalJob envOkDownload jobD1 [oldArtifactD1]).modelUrl = some meshUrlD1 ∧
    (finalJob envOkDownload jobD1 [oldArtifactD1]).error ≠ none ∧
    (finalJob envOkDownload jobD1 [oldArtifactD1]).progress = 100 ∧
    jobInvariant (finalJob envOkDownload jobD1 [oldArtifactD1]) = false := by
  refine ⟨?_, rfl, rfl, ?_, rfl, rfl⟩
  · decide
  · decide

/-- C2: on a second successful generation for dish D1 the registry write is
not a replace — create3DModel attempts a fresh insert, which the unique
constraint on menu_item_id rejects; the registry keeps the old artifact
(not the newest result) and the job is marked failed with the duplicate-key
message. -/
theorem C2_second_completion_insert_crashes :
    create3DModel [oldArtifactD1] "D1" "/uploads/models/mesh.glb" =
      Except.error dupKeyMsg ∧
    (runTask envOkDownload "D1" [oldArtifactD1]).2 = [oldArtifactD1] ∧
    (finalJob envOkDownload jobD1 [oldArtifactD1]).status = JobStatus.failed ∧
    (finalJob envOkDownload jobD1 [oldArtifactD1]).error = some dupKeyMsg :=
  ⟨rfl, rfl, rfl, rfl⟩

/-- C4 counterexample: in the same registry-conflict run the task writes
progress 100 twice (once for the local path, once for the remote-URL
retry), so the written sequence 0,10,30,60,70,100,100 is not strictly
increasing, and the job ends failed with progress 100, not below 100. -/
theorem C4_progress_not_strict_on_conflict :
    progressWrites envOkDownload "D1" [oldArtifactD1] =
      [10, 30, 60, 70, 100, 100] ∧
    strictIncr (0 :: progressWrites envOkDownload "D1" [oldArtifactD1]) = false ∧
    (finalJob envOkDownload jobD1 [oldArtifactD1]).status = JobStatus.failed ∧
    (finalJob envOkDownload jobD1 [oldArtifactD1]).progress = 100 := by
  refine ⟨?_, ?_, rfl, rfl⟩ <;> decide

/-- C5 counterexample: a fully successful first-time run marks the job
completed with the persisted local path, yet completedAt is still null —
the completion update (routes.ts lines 406-410) carries no completedAt
field, and the insert schema omits completedAt, so nothing ever sets it. -/
theorem C5_completedAt_never_set :
    (finalJob envOkDownload (mkJob "job-1" "D1" ["/uploads/images/i.png"] 400) []).status =
      JobStatus.completed ∧
    (finalJob envOkDownload (mkJob "job-1" "D1" ["/uploads/images/i.png"] 400) []).modelUrl =
      some "/uploads/models/mesh.glb" ∧
    (finalJob envOkDownload (mkJob "job-1" "D1" ["/uploads/images/i.png"] 400) []).completedAt =
      none :=
  ⟨rfl, rfl, rfl⟩

/-- C1 (amended): for every job whose dish has no pre-existing Model
Registry artifact, every ledger state reachable through the pipeline's
operations — creation by the upload gate followed by the orchestrator's
and materializer's updates, over every environment — satisfies the
invariant: resultUrl set iff completed, error set iff failed, never both,
and progress 100 only when completed. -/
theorem C1_invariant_fresh_registry (env : TaskEnv) (id mid : String)
    (imgs : List String) (t : Nat) (reg : List Model3D)
    (h : registryHas reg mid = false) :
    ∀ s ∈ statesFrom (mkJob id mid imgs t) (runTask env mid reg).1,
      jobInvariant s = true := by
  obtain ⟨re, pr, fe, now⟩ := env
  rcases re with _ | e
  · rcases pr with mesh | e
    · rcases mesh with _ | url
      · intro s hs
        simp [runTask, taskBody, statesFrom, updateGenerationJob, mkJob,
          updProcessing, updProgress, updFailed] at hs
        rcases hs with rfl | rfl | rfl | rfl | rfl <;> rfl
      · rcases fe with _ | e
        · intro s hs
          simp [runTask, taskBody, materialize, create3DModel, h, statesFrom,
            updateGenerationJob, mkJob, updProcessing, updProgress,
            updCompleted] at hs
          rcases hs with rfl | rfl | rfl | rfl | rfl | rfl <;> rfl
        · intro s hs
          simp [runTask, taskBody, materialize, create3DModel, h, statesFrom,
            updateGenerationJob, mkJob, updProcessing, updProgress,
            updCompleted] at hs
          rcases hs with rfl | rfl | rfl | rfl | rfl | rfl <;> rfl
    · intro s hs
      simp [runTask, taskBody, statesFrom, updateGenerationJob, mkJob,
        updProcessing, updProgress, updFailed] at hs
      rcases hs with rfl | rfl | rfl | rfl <;> rfl
  · intro s hs
    simp [runTask, taskBody, statesFrom, updateGenerationJob, mkJob,
      updProcessing, updFailed] at hs
    rcases hs with rfl | rfl | rfl <;> rfl

/-- Witness for C1 (amended) at a concrete fresh-dish run. -/
theorem C1_invariant_fresh_registry_witness :
    registryHas [] "D1" = false ∧
    ∀ s ∈ statesFrom (mkJob "job-1" "D1" ["/uploads/images/i.png"] 400)
        (runTask envOkDownload "D1" []).1, jobInvariant s = true :=
  ⟨by decide,
   C1_invariant_fresh_registry envOkDownload "job-1" "D1"
     ["/uploads/images/i.png"] 400 [] (by decide)⟩

/-- C3 counterexample: when the dish already has a Model Registry
artifact and the artifact download throws, the inner catch's fallback
create3DModel with the remote URL hits the duplicate-key constraint and
the error escapes to the outer catch (routes.ts 418-448): the run ends
with the job failed (not completed), the failure recorded as the job's
error, and no registry entry created for this run — contradicting every
conclusion of the original claim. -/
theorem C3_prior_artifact_download_failure_fails :
    (finalJob envFetchFail jobD1 [oldArtifactD1]).status = JobStatus.failed ∧
    (finalJob envFetchFail jobD1 [oldArtifactD1]).error = some dupKeyMsg ∧
    (runTask envFetchFail "D1" [oldArtifactD1]).2 = [oldArtifactD1] :=
  ⟨rfl, rfl, rfl⟩

/-- C3 (amended): when the provider returned a usable mesh URL, the
artifact download or local write throws, and the dish has no pre-existing
registry artifact, the job is still marked completed with progress 100 and
resultUrl equal to the provider's original remote URL, a registry entry is
created for the dish with that remote URL, and the failure is not recorded
on the job (error stays unset).  (With a pre-existing artifact the
fallback's registry insert fails and the job ends failed instead — see the
counterexample.) -/
theorem C3_download_failure_fallback (env : TaskEnv) (id mid url : String)
    (imgs : List String) (t : Nat) (reg : List Model3D) (e : JsError)
    (hr : env.readErr = none)
    (hp : env.provider = ProviderOutcome.ok (some url))
    (hf : env.fetchErr = some e)
    (hreg : registryHas reg mid = false) :
    (finalJob env (mkJob id mid imgs t) reg).status = JobStatus.completed ∧
    (finalJob env (mkJob id mid imgs t) reg).progress = 100 ∧
    (finalJob env (mkJob id mid imgs t) reg).modelUrl = some url ∧
    (finalJob env (mkJob id mid imgs t) reg).error = none ∧
    (runTask env mid reg).2 = reg ++
      [{ id := "generated-id", menuItemId := mid, modelUrl := url,
         thumbnailUrl := none, fileSize := none }] := by
  obtain ⟨re, pr, fe, now⟩ := env
  simp only [] at hr hp hf
  subst hr hp hf
  simp [finalJob, runTask, taskBody, materialize, create3DModel, hreg,
    mkJob, updateGenerationJob, updProcessing, updProgress, updCompleted]

/-- Witness for C3 at a concrete download-failure run. -/
theorem C3_download_failure_fallback_witness :
    registryHas [] "D1" = false ∧
    (finalJob envFetchFail (mkJob "job-1" "D1" ["/uploads/images/i.png"] 400) []).status =
      JobStatus.completed ∧
    (finalJob envFetchFail (mkJob "job-1" "D1" ["/uploads/images/i.png"] 400) []).modelUrl =
      some meshUrlD1 :=
  ⟨by decide,
   (C3_download_failure_fallback envFetchFail "job-1" "D1" meshUrlD1
     ["/uploads/images/i.png"] 400 [] JsError.bare rfl rfl rfl (by decide)).1,
   (C3_download_failure_fallback envFetchFail "job-1" "D1" meshUrlD1
     ["/uploads/images/i.png"] 400 [] JsError.bare rfl rfl rfl (by decide)).2.2.1⟩

/-- C4 (amended): the progress values written for one job are always
non-decreasing, and on every run whose dish has no pre-existing registry
artifact they are strictly increasing (a subsequence of 0, 10, 30, 60, 70,
100), the job ends at progress 100 exactly when it completes, and a failed
job ends below 100.  (When the registry insert fails after the completion
write, 100 is written twice and the job ends failed at 100 — see the
counterexample.) -/
theorem C4_progress_monotone (env : TaskEnv) (id mid : String)
    (imgs : List String) (t : Nat) (reg : List Model3D) :
    nonDecr (0 :: progressWrites env mid reg) = true ∧
    (registryHas reg mid = false →
      strictIncr (0 :: progressWrites env mid reg) = true ∧
      ((finalJob env (mkJob id mid imgs t) reg).status = JobStatus.completed ↔
        (finalJob env (mkJob id mid imgs t) reg).progress = 100) ∧
      ((finalJob env (mkJob id mid imgs t) reg).status = JobStatus.failed →
        (finalJob env (mkJob id mid imgs t) reg).progress < 100)) := by
  obtain ⟨re, pr, fe, now⟩ := env
  rcases re with _ | e
  · rcases pr with mesh | e
    · rcases mesh with _ | url
      · constructor
        · simp [progressWrites, runTask, taskBody, updProcessing,
            updProgress, updFailed, nonDecr]
        · intro h
          refine ⟨?_, ?_, ?_⟩
          · simp [progressWrites, runTask, taskBody, updProcessing,
              updProgress, updFailed, strictIncr]
          · simp [finalJob, runTask, taskBody, mkJob, updateGenerationJob,
              updProcessing, updProgress, updFailed]
          · simp [finalJob, runTask, taskBody, mkJob, updateGenerationJob,
              updProcessing, updProgress, updFailed]
      · rcases fe with _ | e
        · by_cases hreg : registryHas reg mid = true
          · constructor
            · simp [progressWrites, runTask, taskBody, materialize,
                create3DModel, hreg, updProcessing, updProgress,
                updCompleted, updFailed, nonDecr]
            · intro h
              rw [h] at hreg
              exact absurd hreg (by decide)
          · rw [Bool.not_eq_true] at hreg
            constructor
            · simp [progressWrites, runTask, taskBody, materialize,
                create3DModel, hreg, updProcessing, updProgress,
                updCompleted, nonDecr]
            · intro h
              refine ⟨?_, ?_, ?_⟩
              · simp [progressWrites, runTask, taskBody, materialize,
                  create3DModel, hreg, updProcessing, updProgress,
                  updCompleted, strictIncr]
              · simp [finalJob, runTask, taskBody, materialize,
                  create3DModel, hreg, mkJob, updateGenerationJob,
                  updProcessing, updProgress, updCompleted]
              · simp [finalJob, runTask, taskBody, materialize,
                  create3DModel, hreg, mkJob, updateGenerationJob,
                  updProcessing, updProgress, updCompleted]
        · by_cases hreg : registryHas reg mid = true
          · constructor
            · simp [progressWrites, runTask, taskBody, materialize,
                create3DModel, hreg, updProcessing, updProgress,
                updCompleted, updFailed, nonDecr]
            · intro h
              rw [h] at hreg
              exact absurd hreg (by decide)
          · rw [Bool.not_eq_true] at hreg
            constructor
            · simp [progressWrites, runTask, taskBody, materialize,
                create3DModel, hreg, updProcessing, updProgress,
                updCompleted, nonDecr]
            · intro h
              refine ⟨?_, ?_, ?_⟩
              · simp [progressWrites, runTask, taskBody, materialize,
                  create3DModel, hreg, updProcessing, updProgress,
                  updCompleted, strictIncr]
              · simp [finalJob, runTask, taskBody, materialize,
                  create3DModel, hreg, mkJob, updateGenerationJob,
                  updProcessing, updProgress, updCompleted]
              · simp [finalJob, runTask, taskBody, materialize,
                  create3DModel, hreg, mkJob, updateGenerationJob,
                  updProcessing, updProgress, updCompleted]
    · constructor
      · simp [progressWrites, runTask, taskBody, updProcessing,
          updProgress, updFailed, nonDecr]
      · intro h
        refine ⟨?_, ?_, ?_⟩
        · simp [progressWrites, runTask, taskBody, updProcessing,
            updProgress, updFailed, strictIncr]
        · simp [finalJob, runTask, taskBody, mkJob, updateGenerationJob,
            updProcessing, updProgress, updFailed]
        · simp [finalJob, runTask, taskBody, mkJob, updateGenerationJob,
            updProcessing, updProgress, updFailed]
  · constructor
    · simp [progressWrites, runTask, taskBody, updProcessing,
        updFailed, nonDecr]
    · intro h
      refine ⟨?_, ?_, ?_⟩
      · simp [progressWrites, runTask, taskBody, updProcessing,
          updFailed, strictIncr]
      · simp [finalJob, runTask, taskBody, mkJob, updateGenerationJob,
          updProcessing, updFailed]
      · simp [finalJob, runTask, taskBody, mkJob, updateGenerationJob,
          updProcessing, updFailed]

/-- Witness for C4 (amended) at a concrete fresh-dish success run. -/
theorem C4_progress_monotone_witness :
    registryHas [] "D1" = false ∧
    strictIncr (0 :: progressWrites envOkDownload "D1" []) = true :=
  ⟨by decide,
   ((C4_progress_monotone envOkDownload "job-1" "D1"
     ["/uploads/images/i.png"] 400 []).2 (by decide)).1⟩

/-- C5 (amended): on materialization success for a dish with no existing
registry artifact, the orchestrator transitions the job to completed with
progress 100, sets resultUrl to the persisted local path under
/uploads/models, inserts an Artifact with that path into the Model
Registry — and leaves completedAt unset (the source never writes it). -/
theorem C5_success_path (env : TaskEnv) (id mid url : String)
    (imgs : List String) (t : Nat) (reg : List Model3D)
    (hr : env.readErr = none)
    (hp : env.provider = ProviderOutcome.ok (some url))
    (hf : env.fetchErr = none)
    (hreg : registryHas reg mid = false) :
    (finalJob env (mkJob id mid imgs t) reg).status = JobStatus.completed ∧
    (finalJob env (mkJob id mid imgs t) reg).progress = 100 ∧
    (finalJob env (mkJob id mid imgs t) reg).modelUrl =
      some ("/uploads/models/" ++ deriveFilename url mid env.now) ∧
    (finalJob env (mkJob id mid imgs t) reg).completedAt = none ∧
    (finalJob env (mkJob id mid imgs t) reg).error = none ∧
    (runTask env mid reg).2 = reg ++
      [{ id := "generated-id", menuItemId := mid,
         modelUrl := "/uploads/models/" ++ deriveFilename url mid env.now,
         thumbnailUrl := none, fileSize := none }] := by
  obtain ⟨re, pr, fe, now⟩ := env
  simp only [] at hr hp hf
  subst hr hp hf
  simp [finalJob, runTask, taskBody, materialize, create3DModel, hreg,
    mkJob, updateGenerationJob, updProcessing, updProgress, updCompleted]

/-- Witness for C5 (amended) at a concrete first-time success run. -/
theorem C5_success_path_witness :
    registryHas [] "D1" = false ∧
    (finalJob envOkDownload (mkJob "job-1" "D1" ["/uploads/images/i.png"] 400) []).progress =
      100 ∧
    (finalJob envOkDownload (mkJob "job-1" "D1" ["/uploads/images/i.png"] 400) []).modelUrl =
      some ("/uploads/models/" ++ deriveFilename meshUrlD1 "D1" envOkDownload.now) :=
  ⟨by decide,
   (C5_success_path envOkDownload "job-1" "D1" meshUrlD1
     ["/uploads/images/i.png"] 400 [] rfl rfl rfl (by decide)).2.1,
   (C5_success_path envOkDownload "job-1" "D1" meshUrlD1
     ["/uploads/images/i.png"] 400 [] rfl rfl rfl (by decide)).2.2.1⟩

/-- C6: on any provider-step failure (the call throws, or the returned
descriptor has no mesh reference), the job ends failed with the catch
block's provider-aware message — which distinguishes an HTTP 401
authentication failure from a generic HTTP provider error from a generic
exception — no resultUrl is set, and no registry artifact is created. -/
theorem C6_provider_failure_terminal (env : TaskEnv) (id mid : String)
    (imgs : List String) (t : Nat) (reg : List Model3D) (e : JsError)
    (hr : env.readErr = none)
    (hp : providerFailure env.provider = some e) :
    (finalJob env (mkJob id mid imgs t) reg).status = JobStatus.failed ∧
    (finalJob env (mkJob id mid imgs t) reg).error = some (errorMessageOf e) ∧
    (finalJob env (mkJob id mid imgs t) reg).modelUrl = none ∧
    (runTask env mid reg).2 = reg ∧
    (∀ m, errorMessageOf (JsError.http 401 m) =
      "Replicate API authentication failed. Please check your REPLICATE_API_TOKEN in .env.local") ∧
    (∀ s m, s ≠ 401 → s ≠ 0 → errorMessageOf (JsError.http s m) =
      "Replicate API error (" ++ toString s ++ "): " ++ m.getD "Unknown error") ∧
    (∀ m, errorMessageOf (JsError.plain m) = m) := by
  obtain ⟨re, pr, fe, now⟩ := env
  simp only [] at hr hp
  subst hr
  rcases pr with mesh | e2
  · rcases mesh with _ | url
    · simp only [providerFailure, Option.some_inj] at hp
      subst hp
      refine ⟨?_, ?_, ?_, ?_, ?_, ?_, ?_⟩
      · simp [finalJob, runTask, taskBody, mkJob, updateGenerationJob,
          updProcessing, updProgress, updFailed]
      · simp [finalJob, runTask, taskBody, mkJob, updateGenerationJob,
          updProcessing, updProgress, updFailed]
      · simp [finalJob, runTask, taskBody, mkJob, updateGenerationJob,
          updProcessing, updProgress, updFailed]
      · simp [runTask, taskBody]
      · intro m
        simp [errorMessageOf]
      · intro s m h1 h2
        simp [errorMessageOf, h1, h2]
      · intro m
        simp [errorMessageOf]
    · simp [providerFailure] at hp
  · simp only [providerFailure, Option.some_inj] at hp
    subst hp
    refine ⟨?_, ?_, ?_, ?_, ?_, ?_, ?_⟩
    · simp [finalJob, runTask, taskBody, mkJob, updateGenerationJob,
        updProcessing, updProgress, updFailed]
    · simp [finalJob, runTask, taskBody, mkJob, updateGenerationJob,
        updProcessing, updProgress, updFailed]
    · simp [finalJob, runTask, taskBody, mkJob, updateGenerationJob,
        updProcessing, updProgress, updFailed]
    · simp [runTask, taskBody]
    · intro m
      simp [errorMessageOf]
    · intro s m h1 h2
      simp [errorMessageOf, h1, h2]
    · intro m
      simp [errorMessageOf]

/-- Witness for C6 at a concrete authentication-failure run for dish D2. -/
theorem C6_provider_failure_terminal_witness :
    providerFailure envAuthFail.provider = some (JsError.http 401 none) ∧
    (finalJob envAuthFail (mkJob "job-3" "D2" ["/uploads/images/i.png"] 400) []).status =
      JobStatus.failed ∧
    (finalJob envAuthFail (mkJob "job-3" "D2" ["/uploads/images/i.png"] 400) []).error =
      some "Replicate API authentication failed. Please check your REPLICATE_API_TOKEN in .env.local" ∧
    (runTask envAuthFail "D2" []).2 = [] := by
  refine ⟨rfl, ?_, ?_, ?_⟩
  · exact (C6_provider_failure_terminal envAuthFail "job-3" "D2"
      ["/uploads/images/i.png"] 400 [] (JsError.http 401 none) rfl rfl).1
  · exact (C6_provider_failure_terminal envAuthFail "job-3" "D2"
      ["/uploads/images/i.png"] 400 [] (JsError.http 401 none) rfl rfl).2.1
  · exact (C6_provider_failure_terminal envAuthFail "job-3" "D2"
      ["/uploads/images/i.png"] 400 [] (JsError.http 401 none) rfl rfl).2.2.2.1

/-- C8: when the Replicate credential is absent, a well-formed submission
(menuItemId present, accepted image file) is answered 503 and no job is
returned; moreover no request of any shape creates a job while the
credential is absent, since the credential check precedes the ledger
insert. -/
theorem C8_missing_credential_503 (req : GenRequest) (st : ServerState)
    (newJobId : String) (now : Nat) (mid : String) (f : UploadedFile)
    (hm : req.menuItemId = some mid)
    (hf : req.file = some f)
    (ha : multerAccepts f = true) :
    (handleGenerate false req newJobId now st).1.httpStatus = 503 ∧
    (handleGenerate false req newJobId now st).1.job = none ∧
    (handleGenerate false req newJobId now st).2.jobs = st.jobs ∧
    (∀ req2 : GenRequest,
      (handleGenerate false req2 newJobId now st).2.jobs = st.jobs) := by
  obtain ⟨rm, rf⟩ := req
  simp only [] at hm hf
  subst hm hf
  refine ⟨?_, ?_, ?_, ?_⟩
  · simp [handleGenerate, handlerBody, ha]
  · simp [handleGenerate, handlerBody, ha]
  · simp [handleGenerate, handlerBody, ha]
  · intro req2
    obtain ⟨rm2, rf2⟩ := req2
    rcases rf2 with _ | f2
    · rcases rm2 with _ | m2 <;> simp [handleGenerate, handlerBody]
    · by_cases ha2 : multerAccepts f2 = true
      · rcases rm2 with _ | m2 <;> simp [handleGenerate, handlerBody, ha2]
      · rw [Bool.not_eq_true] at ha2
        simp [handleGenerate, ha2]

/-- Witness for C8 at a concrete credential-absent submission. -/
theorem C8_missing_credential_503_witness :
    multerAccepts sampleFile = true ∧
    (handleGenerate false
      { menuItemId := some "D1", file := some sampleFile }
      "job-1" 400 emptyState).1.httpStatus = 503 ∧
    (handleGenerate false
      { menuItemId := some "D1", file := some sampleFile }
      "job-1" 400 emptyState).2.jobs = emptyState.jobs :=
  ⟨by decide,
   (C8_missing_credential_503
     { menuItemId := some "D1", file := some sampleFile }
     emptyState "job-1" 400 "D1" sampleFile rfl rfl (by decide)).1,
   (C8_missing_credential_503
     { menuItemId := some "D1", file := some sampleFile }
     emptyState "job-1" 400 "D1" sampleFile rfl rfl (by decide)).2.2.1⟩

/-- C10: for every submission carrying an accepted image file that the
handler nevertheless rejects (400 for a missing menuItemId or 503 for a
missing credential), the multer middleware has already written the image
to uploads/images, the file is still there after the rejection, and no job
was created. -/
theorem C10_rejection_keeps_staged_image (tok : Bool) (req : GenRequest)
    (st : ServerState) (newJobId : String) (now : Nat) (f : UploadedFile)
    (hf : req.file = some f)
    (ha : multerAccepts f = true)
    (hrej : (handleGenerate tok req newJobId now st).1.httpStatus ≠ 202) :
    f.filename ∈ (handleGenerate tok req newJobId now st).2.imageFiles ∧
    ((handleGenerate tok req newJobId now st).1.httpStatus = 400 ∨
     (handleGenerate tok req newJobId now st).1.httpStatus = 503) ∧
    (handleGenerate tok req newJobId now st).2.jobs = st.jobs ∧
    (handleGenerate tok req newJobId now st).1.job = none := by
  obtain ⟨rm, rf⟩ := req
  simp only [] at hf
  subst hf
  rcases rm with _ | mid
  · simp [handleGenerate, handlerBody, ha]
  · rcases tok with _ | _
    · simp [handleGenerate, handlerBody, ha]
    · exfalso
      apply hrej
      simp [handleGenerate, handlerBody, ha]

/-- Witness for C10 at a concrete missing-menuItemId submission. -/
theorem C10_rejection_keeps_staged_image_witness :
    multerAccepts sampleFile = true ∧
    (handleGenerate true
      { menuItemId := none, file := some sampleFile }
      "job-1" 400 emptyState).1.httpStatus ≠ 202 ∧
    sampleFile.filename ∈
      (handleGenerate true
        { menuItemId := none, file := some sampleFile }
        "job-1" 400 emptyState).2.imageFiles := by
  refine ⟨by decide, by decide, ?_⟩
  exact (C10_rejection_keeps_staged_image true
    { menuItemId := none, file := some sampleFile }
    emptyState "job-1" 400 sampleFile rfl (by decide) (by decide)).1
